import Mathlib

/-!
# Verification of the stream-mediasoup-client room protocol client

Shallow embedding of `src/app/utils/index.ts`: the room registry subscription
(`subscribeSocketToRooms`), `joinRoom`, and the `RoomClient` operations
(`createProducer`, `createConsumer`, `close`) together with the consumer
reconciliation listeners. Opaque collaborator data (rtp capabilities, ICE/DTLS
parameters, tracks) is modelled by strings; the signaling channel is modelled by
passing each RPC's acknowledgement as an explicit `Except` value (the adapter
contract makes every ack either an `ok` payload or a typed error). The media
engine (mediasoup-client) is a black box whose observable inputs — negotiated
device capabilities and the connection states it reports — are parameters.
-/

namespace StreamClient

/-- The closed set of signaling error kinds carried in `Result.error.type`. -/
inductive ErrKind where
  | roomAlreadyExists
  | roomDoesNotExist
  | transportCannotConsumeProducer
  | transportDoesNotExist
  | transportIsNotAConsumer
  | unauthorized
  deriving DecidableEq

/-- A codec entry of a capability descriptor (opaque to the client). -/
abbrev Codec := String

/-- Opaque router capability descriptor attached to a room (`rtpCapabilities`). -/
abbrev Caps := List Codec

/-- One member's entry in a pushed room snapshot. -/
structure MemberState where
  audioProducerIds : List String
  videoProducerIds : List String
  consumerIds : List String
  deriving DecidableEq

/-- One room's entry in a pushed snapshot: capability descriptor plus the
members keyed by socket id (modelled as an association list). -/
structure RoomState where
  rtpCapabilities : Caps
  members : List (String × MemberState)
  deriving DecidableEq

/-- The `_rooms` object: room name to room state (association list). -/
abbrev Registry := List (String × RoomState)

/-- Indexing `rooms[name]`: the entry for `name` if present. -/
def lookupRoom (rs : Registry) (name : String) : Option RoomState :=
  (rs.find? fun p => p.1 == name).map (·.2)

/-- A `rooms-updated` push: a tagged `Result` with an optional payload and an
optional error. The installed handler reads only `result` (as `data.result!`)
and never inspects the error branch. -/
structure RoomsUpdatedPush where
  result : Option Registry
  error : Option ErrKind
  deriving DecidableEq

/-- State of one `subscribeSocketToRooms` subscription. `rooms = none` models
the `undefined` value that `_rooms = data.result!` stores when a push carries
no payload; `fired` is the closure flag guarding `onFirstUpdate`; the two
counters record how often `onUpdate` and `onFirstUpdate` have been invoked. -/
structure SubState where
  rooms : Option Registry
  fired : Bool
  updateCalls : Nat
  firstUpdateCalls : Nat
  deriving DecidableEq

/-- Subscription state right after `subscribeSocketToRooms` is called:
`_rooms` is the initial empty object and `fired` is `false`. -/
def initialSub : SubState :=
  { rooms := some [], fired := false, updateCalls := 0, firstUpdateCalls := 0 }

/-- The `rooms-updated` handler (source lines 40–52): store `data.result!`
wholesale, call `onUpdate`, run every reconciliation listener, then call
`onFirstUpdate` once, guarded by `fired`. -/
def handlePush (st : SubState) (data : RoomsUpdatedPush) : SubState :=
  let st1 : SubState :=
    { st with rooms := data.result, updateCalls := st.updateCalls + 1 }
  if st1.fired then st1
  else { st1 with fired := true, firstUpdateCalls := st1.firstUpdateCalls + 1 }

/-- A whole sequence of pushes delivered to one subscription, in channel order. -/
def processPushes (st : SubState) (ps : List RoomsUpdatedPush) : SubState :=
  ps.foldl handlePush st

/-- Negotiated device capabilities after `device.load`; `codecs` is an optional
field in the engine's type (the source reads `rtpCapabilities.codecs?`). -/
structure DeviceCaps where
  codecs : Option (List Codec)
  deriving DecidableEq

/-- A client-side transport handle; `closed` records a local `close()`. -/
structure Transport where
  id : String
  closed : Bool
  deriving DecidableEq

/-- The `RoomClient` fields: the loaded device, the bound room name and
signaling socket, and the two lazily created transports. -/
structure ClientState where
  device : DeviceCaps
  room : String
  socketId : Nat
  sendTransport : Option Transport
  recvTransport : Option Transport
  deriving DecidableEq

/-- Possible outcomes of a `joinRoom` call. `fault` is the TypeError raised by
indexing `_rooms` when a pushed `Result` carried no payload and left it
`undefined`; the two `err` constructors are the thrown `Error`s
("Room does not exist" and "No codecs supported"). -/
inductive JoinOutcome where
  | fault
  | errRoomDoesNotExist
  | errNoCodecs
  | ok (client : ClientState)
  deriving DecidableEq

/-- `joinRoom` (source lines 82–102). `negotiate` is the black-box media
engine: `Device.factory()` plus `device.load` on the room's descriptor,
yielding `device.rtpCapabilities`. The codec check is the source's
`device.rtpCapabilities.codecs?.length === 0`, which is true exactly when the
optional `codecs` field is present and empty. -/
def joinRoom (rooms : Option Registry) (negotiate : Caps → DeviceCaps)
    (roomName : String) (socketId : Nat) : JoinOutcome :=
  match rooms with
  | none => .fault
  | some rs =>
    match lookupRoom rs roomName with
    | none => .errRoomDoesNotExist
    | some room =>
      let device := negotiate room.rtpCapabilities
      if device.codecs = some [] then .errNoCodecs
      else .ok { device := device, room := roomName, socketId := socketId,
                 sendTransport := none, recvTransport := none }

/-- Transport credentials returned by the `join-room` ack. -/
structure TransportCreds where
  id : String
  iceParameters : String
  iceCandidates : List String
  dtlsParameters : String
  deriving DecidableEq

/-- Payload of the `transport-consume` ack. -/
structure ConsumeCreds where
  id : String
  rtpParameters : String
  deriving DecidableEq

/-- Connection states the media engine reports through
`connectionstatechange` and exposes as `transport.connectionState`. -/
inductive ConnState where
  | new
  | connecting
  | connected
  | disconnected
  | failed
  | closed
  deriving DecidableEq

/-- `producerKind` of a consumer: which producer-id set of a member it tracks. -/
inductive MediaKind where
  | audio
  | video
  deriving DecidableEq

/-- How a client call is observed by its caller: the returned promise resolved
(`ok`), rejected with a typed error (`threw`), or was never settled (`hung`). -/
inductive CallOutcome (α : Type) where
  | ok (a : α)
  | threw (e : ErrKind)
  | hung
  deriving DecidableEq

/-- A producer handle as returned to the caller: the server-assigned id and the
track it sends. -/
structure ProducerH where
  id : String
  track : String
  deriving DecidableEq

/-- The signaling acks one `createProducer` call can consume: the `join-room`
ack (read only when the send transport is first created), and the
`connect-transport` / `transport-produce` acks relayed through the engine's
`connect` / `produce` events. -/
structure ProducerEnv where
  joinRes : Except ErrKind TransportCreds
  connectRes : Except ErrKind Unit
  produceRes : Except ErrKind String
  track : String

/-- The `produce` phase of `createProducer` (source lines 155–190). The
`connect` and `produce` events call the handlers installed on the send
transport; each handler does `throw new Error(res.error.type)` on an error ack.
That throw happens inside an async event handler, so the handler's `callback`
is never invoked and `sendTransport.produce(...)` never settles: the call
hangs. `needConnect` is true on the transport's first produce, which is the
only time the engine fires `connect`. -/
def produceOn (env : ProducerEnv) (needConnect : Bool) : CallOutcome ProducerH :=
  if needConnect then
    match env.connectRes with
    | .error _ => .hung
    | .ok _ =>
      match env.produceRes with
      | .error _ => .hung
      | .ok pid => .ok { id := pid, track := env.track }
  else
    match env.produceRes with
    | .error _ => .hung
    | .ok pid => .ok { id := pid, track := env.track }

/-- One `createProducer` call (source lines 136–191): lazily create the send
transport from a `join-room` ack (throwing its typed error on failure, before
any state changes), then produce on it. Returns the caller-visible outcome and
the client state after the call. -/
def createProducerStep (c : ClientState) (env : ProducerEnv) :
    CallOutcome ProducerH × ClientState :=
  match c.sendTransport with
  | some _ => (produceOn env false, c)
  | none =>
    match env.joinRes with
    | .error e => (.threw e, c)
    | .ok creds =>
      (produceOn env true,
       { c with sendTransport := some { id := creds.id, closed := false } })

/-- The signaling acks one `createConsumer` call can consume, plus the call's
arguments. `resumeRes` is the server's answer to `resume-consume` (the RPC is
emitted before its ack is awaited, so the set of issued RPCs never depends on
it). -/
structure ConsumerEnv where
  joinRes : Except ErrKind TransportCreds
  consumeRes : Except ErrKind ConsumeCreds
  resumeRes : Except ErrKind Unit
  producerId : String
  producerKind : MediaKind

/-- Scheduler input for one `createConsumer` call, fixing when the engine
reports connection states relative to the call's own suspension points:
`statesBeforeConsume` are `connectionstatechange` deliveries while the local
`consumer` variable is still undefined (a `connected` delivery there crashes
the handler on `consumer!.id` before anything is emitted, so these deliveries
are unobservable); `stateAtCheck` is the value of
`recvTransport.connectionState` read by the synchronous post-consume check;
`statesAfterCheck` are deliveries after that synchronous block, when the
`consumer` variable is in scope. -/
structure ConsumerSched where
  statesBeforeConsume : List ConnState
  stateAtCheck : ConnState
  statesAfterCheck : List ConnState
  deriving DecidableEq

/-- One `connectionstatechange` delivery handled by the listener installed at
recv-transport creation (source lines 254–271), once the local `consumer`
variable holds the consumer with id `cid`. On a `connected` state the handler
emits `resume-consume` for `cid` — there is no once-guard and no per-consumer
flag, so every observed `connected` emits its own RPC — then, if the ack is ok,
calls `resolve(consumer)`, which settles the promise only if it is still
pending; an error ack throws inside the handler before `resolve`. The
accumulator carries the promise outcome so far and the ids named in the
`resume-consume` RPCs issued so far. -/
def connectionHandlerStep (env : ConsumerEnv) (cid : String)
    (acc : CallOutcome String × List String) (st : ConnState) :
    CallOutcome String × List String :=
  if st = .connected then
    let issued := acc.2 ++ [cid]
    match env.resumeRes with
    | .error _ => (acc.1, issued)
    | .ok _ =>
      match acc.1 with
      | .hung => (.ok cid, issued)
      | o => (o, issued)
  else acc

/-- The result of one `createConsumer` call: the caller-visible promise
outcome (`ok` carries the consumer id it resolved with), the consumer ids
named in the `resume-consume` RPCs issued during the call, whether the call
stored a reconciliation listener under the consumer's id, and the client state
after the call. -/
structure ConsumerRun where
  outcome : CallOutcome String
  resumeCalls : List String
  listenerRegistered : Bool
  state : ClientState
  deriving DecidableEq

/-- The synchronous post-consume check (source lines 294–302): reading
`recvTransport.connectionState` equal to `connected` emits `resume-consume`
for the new consumer (unconditionally — no flag), then an ok ack registers the
reconciliation listener and resolves, while an error ack throws inside the
async executor after the RPC was already emitted, reaching neither
registration nor `resolve`. Returns the promise outcome so far, the ids of the
RPCs emitted, and whether the listener was registered. -/
def syncCheck (env : ConsumerEnv) (cid : String) (stNow : ConnState) :
    CallOutcome String × List String × Bool :=
  if stNow = .connected then
    match env.resumeRes with
    | .error _ => (.hung, [cid], false)
    | .ok _ => (.ok cid, [cid], true)
  else (.hung, [], false)

/-- The tail of `createConsumer` once a recv transport exists (source lines
274–345): the `transport-consume` RPC, the local `consume`, the synchronous
connected check, and the later `connectionstatechange` deliveries.

On a `transport-consume` error ack the code does `throw new Error(...)` inside
the `async` function passed to `new Promise(...)`; an async executor never
throws synchronously into the `Promise` constructor — its rejection lands in
the executor's own (unobserved) promise — so the promise returned by
`createConsumer` is never settled and the call hangs. Subsequent `connected`
deliveries crash the handler on the undefined `consumer` variable before its
emit, so nothing resumes or resolves either.

On success the `syncCheck` branch runs; the listener registration and
`resolve` exist only in that branch — the `connectionstatechange` path
resolves without ever registering a listener.

`handlerBound` is false when the transport was reused: the handler installed by
the first call closes over that first call's `consumer` variable, so deliveries
never act on the current call's consumer. -/
def consumeTail (c : ClientState) (env : ConsumerEnv) (sched : ConsumerSched)
    (handlerBound : Bool) : ConsumerRun :=
  match env.consumeRes with
  | .error _ =>
    { outcome := .hung, resumeCalls := [], listenerRegistered := false, state := c }
  | .ok creds =>
    let sync := syncCheck env creds.id sched.stateAtCheck
    let fin : CallOutcome String × List String :=
      if handlerBound then
        sched.statesAfterCheck.foldl (connectionHandlerStep env creds.id)
          (sync.1, sync.2.1)
      else (sync.1, sync.2.1)
    { outcome := fin.1, resumeCalls := fin.2,
      listenerRegistered := sync.2.2, state := c }

/-- One `createConsumer` call (source lines 213–347). With no recv transport
yet, a `join-room` error ack hits `reject(creds.error.type)` — which settles
the returned promise — and the code then falls through to `creds.result!.id`,
whose TypeError aborts the executor before the transport field is assigned, so
the state is unchanged. On an ok ack the recv transport is created, the
`connect` and `connectionstatechange` handlers are installed, and the call
continues with `consumeTail`. With an existing recv transport the call reuses
it directly (no handlers installed by this call). -/
def createConsumerRun (c : ClientState) (env : ConsumerEnv)
    (sched : ConsumerSched) : ConsumerRun :=
  match c.recvTransport with
  | some _ => consumeTail c env sched false
  | none =>
    match env.joinRes with
    | .error e =>
      { outcome := .threw e, resumeCalls := [], listenerRegistered := false,
        state := c }
    | .ok creds =>
      consumeTail { c with recvTransport := some { id := creds.id, closed := false } }
        env sched true

/-- Effects of one invocation of a registered reconciliation listener. -/
structure ListenerEffects where
  consumerClosed : Bool
  closeConsumerSent : Bool
  unregistered : Bool
  onEndCalled : Bool
  deriving DecidableEq

/-- Whether a member's kind-matching producer-id set contains `pid`
(`member.audioProducerIds.includes(...)` resp. `videoProducerIds`). -/
def memberHasProducer (kind : MediaKind) (pid : String) (m : MemberState) : Bool :=
  match kind with
  | .audio => m.audioProducerIds.contains pid
  | .video => m.videoProducerIds.contains pid

/-- Body of the reconciliation listener stored under the consumer's id in the
synchronous branch (source lines 303–342), run on one pushed snapshot: when the
producer id is absent from the kind-matching set of every member of the
consumer's room, it closes the consumer, emits `close-consumer`
(fire-and-forget), deletes its own registration, and calls `onEnd`. When the
room itself is missing from the snapshot, `rooms[this.room]!.members` raises a
TypeError and the listener aborts with no effects. -/
def consumerListenerStep (room : String) (kind : MediaKind) (pid : String)
    (rooms : Registry) : ListenerEffects :=
  match lookupRoom rooms room with
  | none =>
    { consumerClosed := false, closeConsumerSent := false,
      unregistered := false, onEndCalled := false }
  | some rs =>
    if rs.members.any fun m => memberHasProducer kind pid m.2 then
      { consumerClosed := false, closeConsumerSent := false,
        unregistered := false, onEndCalled := false }
    else
      { consumerClosed := true, closeConsumerSent := true,
        unregistered := true, onEndCalled := true }

/-- One `close()` call (source lines 453–466): for each present transport,
close it locally and emit one `close-transport` notification; the transport
fields are not cleared. Returns the new state and the transport ids named in
the notifications, in emission order. The engine's `transport.close()` returns
normally even on an already-closed transport and the notification is
fire-and-forget, so no step of the body can signal an error. -/
def closeRun (c : ClientState) : ClientState × List String :=
  let step1 : ClientState × List String :=
    match c.sendTransport with
    | none => (c, [])
    | some t => ({ c with sendTransport := some { t with closed := true } }, [t.id])
  match step1.1.recvTransport with
  | none => step1
  | some t =>
    ({ step1.1 with recvTransport := some { t with closed := true } },
     step1.2 ++ [t.id])

/-- `close()` as observed by its caller: the body has no error path (see
`closeRun`), so the call always returns normally. -/
def closeClient (c : ClientState) : Except ErrKind (ClientState × List String) :=
  .ok (closeRun c)

/-- One client call of a session, for reasoning about call sequences. -/
inductive SessionCall where
  | producer (env : ProducerEnv)
  | consumer (env : ConsumerEnv) (sched : ConsumerSched)

/-- The client state after one session call. -/
def sessionStep (c : ClientState) : SessionCall → ClientState
  | .producer env => (createProducerStep c env).2
  | .consumer env sched => (createConsumerRun c env sched).state

/-- A client fresh out of `joinRoom`, used as a concrete evaluation point. -/
def freshClient : ClientState :=
  { device := { codecs := some ["vp8"] }, room := "R", socketId := 0,
    sendTransport := none, recvTransport := none }

/-- Concrete `join-room` credentials for evaluation. -/
def demoCreds : TransportCreds :=
  { id := "T1", iceParameters := "ice", iceCandidates := ["cand"],
    dtlsParameters := "dtls" }

/-- A `createConsumer` environment in which every ack succeeds. -/
def demoConsumerEnv : ConsumerEnv :=
  { joinRes := .ok demoCreds,
    consumeRes := .ok { id := "C1", rtpParameters := "rtp" },
    resumeRes := .ok (), producerId := "P1", producerKind := .video }

/-- Schedule where `consume` completes while the transport is still
connecting, the transport then connects (the handler resumes and resolves),
drops, and reconnects, so the handler observes `connected` twice. -/
def reconnectSched : ConsumerSched :=
  { statesBeforeConsume := [], stateAtCheck := .connecting,
    statesAfterCheck := [.connected, .disconnected, .connecting, .connected] }

/-- Schedule for the common cold-start path: `consume` completes while the
transport is still connecting and the transport connects afterwards, so the
call is resolved by the `connectionstatechange` handler. -/
def eventResolveSched : ConsumerSched :=
  { statesBeforeConsume := [], stateAtCheck := .connecting,
    statesAfterCheck := [.connected] }

/- ## Helper lemmas -/

theorem handlePush_rooms (st : SubState) (p : RoomsUpdatedPush) :
    (handlePush st p).rooms = p.result := by
  cases h : st.fired <;> simp [handlePush, h]

theorem handlePush_fired (st : SubState) (p : RoomsUpdatedPush) :
    (handlePush st p).fired = true := by
  cases h : st.fired <;> simp [handlePush, h]

theorem handlePush_of_fired (st : SubState) (p : RoomsUpdatedPush)
    (h : st.fired = true) :
    (handlePush st p).firstUpdateCalls = st.firstUpdateCalls := by
  simp [handlePush, h]

theorem processPushes_of_fired (ps : List RoomsUpdatedPush) :
    ∀ st : SubState, st.fired = true →
      (processPushes st ps).firstUpdateCalls = st.firstUpdateCalls := by
  induction ps with
  | nil => intro st _; rfl
  | cons p ps ih =>
    intro st h
    have h2 := handlePush_fired st p
    calc (processPushes st (p :: ps)).firstUpdateCalls
        = (processPushes (handlePush st p) ps).firstUpdateCalls := rfl
      _ = (handlePush st p).firstUpdateCalls := ih _ h2
      _ = st.firstUpdateCalls := handlePush_of_fired st p h

theorem connectionHandlerStep_snd (env : ConsumerEnv) (cid : String)
    (acc : CallOutcome String × List String) (st : ConnState) :
    (connectionHandlerStep env cid acc st).2 =
      if st = ConnState.connected then acc.2 ++ [cid] else acc.2 := by
  by_cases h : st = ConnState.connected
  · simp only [connectionHandlerStep, if_pos h]
    cases env.resumeRes <;> cases h1 : acc.1 <;> rfl
  · simp [connectionHandlerStep, h]

theorem foldl_handler_issued (env : ConsumerEnv) (cid : String)
    (l : List ConnState) :
    ∀ acc : CallOutcome String × List String,
      (l.foldl (connectionHandlerStep env cid) acc).2 =
        acc.2 ++ (l.filter fun s => s == ConnState.connected).map
          (fun _ => cid) := by
  induction l with
  | nil => intro acc; simp
  | cons hd tl ih =>
    intro acc
    rw [List.foldl_cons, ih (connectionHandlerStep env cid acc hd),
      connectionHandlerStep_snd]
    by_cases h : hd = ConnState.connected
    · simp [h, List.filter_cons]
    · simp [h, List.filter_cons]

theorem syncCheck_snd (env : ConsumerEnv) (cid : String) (stNow : ConnState) :
    (syncCheck env cid stNow).2.1 =
      if stNow = ConnState.connected then [cid] else [] := by
  by_cases h : stNow = ConnState.connected
  · simp only [syncCheck, if_pos h]
    cases env.resumeRes <;> rfl
  · simp [syncCheck, h]

theorem consumeTail_resumeCalls (c : ClientState) (env : ConsumerEnv)
    (sched : ConsumerSched) (ccreds : ConsumeCreds)
    (h : env.consumeRes = .ok ccreds) :
    (consumeTail c env sched true).resumeCalls =
      (syncCheck env ccreds.id sched.stateAtCheck).2.1 ++
        (sched.statesAfterCheck.filter fun s => s == ConnState.connected).map
          (fun _ => ccreds.id) := by
  unfold consumeTail
  rw [h]
  exact foldl_handler_issued env ccreds.id sched.statesAfterCheck _

theorem createConsumerRun_fresh (c : ClientState) (env : ConsumerEnv)
    (sched : ConsumerSched) (creds : TransportCreds)
    (h : c.recvTransport = none) (hj : env.joinRes = .ok creds) :
    createConsumerRun c env sched =
      consumeTail { c with recvTransport := some { id := creds.id, closed := false } }
        env sched true := by
  unfold createConsumerRun
  rw [h, hj]

theorem consumeTail_state (c : ClientState) (env : ConsumerEnv)
    (sched : ConsumerSched) (b : Bool) :
    (consumeTail c env sched b).state = c := by
  unfold consumeTail
  cases env.consumeRes <;> rfl

theorem createProducerStep_state_of_send (c : ClientState) (env : ProducerEnv)
    (t : Transport) (h : c.sendTransport = some t) :
    (createProducerStep c env).2 = c := by
  simp [createProducerStep, h]

theorem createProducerStep_recv (c : ClientState) (env : ProducerEnv) :
    (createProducerStep c env).2.recvTransport = c.recvTransport := by
  unfold createProducerStep
  cases h : c.sendTransport with
  | some t => rfl
  | none => cases hj : env.joinRes <;> rfl

theorem createConsumerRun_state_of_recv (c : ClientState) (env : ConsumerEnv)
    (sched : ConsumerSched) (t : Transport) (h : c.recvTransport = some t) :
    (createConsumerRun c env sched).state = c := by
  unfold createConsumerRun
  rw [h]
  exact consumeTail_state c env sched false

theorem createConsumerRun_send (c : ClientState) (env : ConsumerEnv)
    (sched : ConsumerSched) :
    (createConsumerRun c env sched).state.sendTransport = c.sendTransport := by
  unfold createConsumerRun
  cases h : c.recvTransport with
  | some t => rw [consumeTail_state]
  | none =>
    cases hj : env.joinRes with
    | error e => rfl
    | ok creds => rw [consumeTail_state]

theorem sessionStep_send (c : ClientState) (call : SessionCall) (t : Transport)
    (h : c.sendTransport = some t) :
    (sessionStep c call).sendTransport = some t := by
  cases call with
  | producer env =>
    show (createProducerStep c env).2.sendTransport = some t
    rw [createProducerStep_state_of_send c env t h, h]
  | consumer env sched =>
    show (createConsumerRun c env sched).state.sendTransport = some t
    rw [createConsumerRun_send, h]

theorem sessionStep_recv (c : ClientState) (call : SessionCall) (t : Transport)
    (h : c.recvTransport = some t) :
    (sessionStep c call).recvTransport = some t := by
  cases call with
  | producer env =>
    show (createProducerStep c env).2.recvTransport = some t
    rw [createProducerStep_recv, h]
  | consumer env sched =>
    show (createConsumerRun c env sched).state.recvTransport = some t
    rw [createConsumerRun_state_of_recv c env sched t h, h]

theorem foldl_sessionStep_send (calls : List SessionCall) :
    ∀ (c : ClientState) (t : Transport), c.sendTransport = some t →
      (calls.foldl sessionStep c).sendTransport = some t := by
  induction calls with
  | nil => intro c t h; exact h
  | cons call calls ih =>
    intro c t h
    exact ih _ t (sessionStep_send c call t h)

theorem foldl_sessionStep_recv (calls : List SessionCall) :
    ∀ (c : ClientState) (t : Transport), c.recvTransport = some t →
      (calls.foldl sessionStep c).recvTransport = some t := by
  induction calls with
  | nil => intro c t h; exact h
  | cons call calls ih =>
    intro c t h
    exact ih _ t (sessionStep_recv c call t h)

/- ## Claim theorems -/

/-- Claim C1, counterexample: the claim "at most one resume-consume RPC is
ever issued per consumer id" is false. With every ack succeeding, a consumer
whose `consume` completes while the transport is still connecting and whose
transport then connects, drops, and reconnects (`reconnectSched`) gets two
`resume-consume` RPCs for its id "C1": the `connectionstatechange` handler has
no once-guard and no per-consumer flag, so each observed `connected` emits its
own RPC. -/
theorem resume_consume_issued_twice :
    (createConsumerRun freshClient demoConsumerEnv reconnectSched).resumeCalls
      = ["C1", "C1"] ∧
    ¬((createConsumerRun freshClient demoConsumerEnv
        reconnectSched).resumeCalls.count ("C1") ≤ 1) := by
  constructor
  · rfl
  · decide

/-- Claim C1, amended: one `resume-consume` RPC is issued per trigger firing, with
no per-consumer-id deduplication — the synchronous post-creation check issues
one RPC when it observes a connected transport, and the connectivity handler
issues one RPC per `connected` state change it observes with the consumer in
scope; the total for a consumer's id is exactly the number of trigger firings
and can therefore exceed one. -/
theorem resume_consume_once_per_trigger
    (dev : DeviceCaps) (room : String) (sock : Nat) (so : Option Transport)
    (creds : TransportCreds) (ccreds : ConsumeCreds)
    (rres : Except ErrKind Unit) (pid : String) (kd : MediaKind)
    (sched : ConsumerSched) :
    (createConsumerRun
        { device := dev, room := room, socketId := sock,
          sendTransport := so, recvTransport := none }
        { joinRes := .ok creds, consumeRes := .ok ccreds, resumeRes := rres,
          producerId := pid, producerKind := kd } sched).resumeCalls =
      (if sched.stateAtCheck = ConnState.connected then [ccreds.id] else []) ++
        (sched.statesAfterCheck.filter fun s => s == ConnState.connected).map
          (fun _ => ccreds.id) := by
  rw [createConsumerRun_fresh _ _ _ creds rfl rfl,
    consumeTail_resumeCalls _ _ _ ccreds rfl, syncCheck_snd]

/-- Claim C2: a `transport-consume` error ack during `createConsumer` does not
propagate to the caller — the `throw` sits inside the async function passed to
`new Promise(...)`, so the promise returned by `createConsumer` is never
settled: for every schedule and every error kind (in particular
`TransportCannotConsumeProducer`) the call hangs instead of rejecting. -/
theorem consume_error_leaves_promise_pending (sched : ConsumerSched)
    (e : ErrKind) (rres : Except ErrKind Unit) (pid : String)
    (kd : MediaKind) :
    (createConsumerRun freshClient
      { joinRes := .ok demoCreds, consumeRes := .error e, resumeRes := rres,
        producerId := pid, producerKind := kd } sched).outcome
      = CallOutcome.hung := by
  rw [createConsumerRun_fresh _ _ _ demoCreds rfl rfl]
  rfl

/-- Claim C3: a consumer resolved through the `connectionstatechange` path — the
common cold start, where `consume` completes while the transport is still
connecting and the transport connects afterwards — resolves successfully but
registers no reconciliation listener: the registration exists only in the
synchronous connected-check branch, so this consumer is never closed by any
later registry push. -/
theorem event_path_resolves_without_listener :
    (createConsumerRun freshClient demoConsumerEnv eventResolveSched).outcome
      = CallOutcome.ok ("C1") ∧
    (createConsumerRun freshClient demoConsumerEnv
        eventResolveSched).listenerRegistered = false := by
  exact ⟨rfl, rfl⟩

/-- Claim C4: each `rooms-updated` push replaces the stored registry wholesale:
after any sequence of pushes ending in `p`, the stored rooms value is exactly
`p`'s payload, independently of the starting state and of every earlier push —
no merge, no partial update. -/
theorem registry_replaced_wholesale (st : SubState)
    (ps : List RoomsUpdatedPush) (p : RoomsUpdatedPush) :
    (processPushes st (ps ++ [p])).rooms = p.result := by
  rw [processPushes, List.foldl_append]
  exact handlePush_rooms _ p

/-- Claim C5: `joinRoom` on a room name absent from the registry (in particular any
room never created) fails with the RoomDoesNotExist error
(`throw new Error("Room does not exist")`). -/
theorem joinRoom_absent_room_fails (rs : Registry)
    (negotiate : Caps → DeviceCaps) (name : String) (sock : Nat)
    (h : lookupRoom rs name = none) :
    joinRoom (some rs) negotiate name sock = .errRoomDoesNotExist := by
  simp [joinRoom, h]

/-- Witness for C5 at the empty registry and room "lobby". -/
theorem joinRoom_absent_room_fails_witness :
    lookupRoom [] "lobby" = none ∧
    joinRoom (some []) (fun _ => { codecs := some ["vp8"] }) "lobby" 0
      = .errRoomDoesNotExist :=
  ⟨rfl, joinRoom_absent_room_fails [] (fun _ => { codecs := some ["vp8"] })
    "lobby" 0 rfl⟩

/-- Claim C6: for a room present in the registry, with the black-box negotiation
yielding a codec list (the engine's `load` contract), `joinRoom` fails with the
UnsupportedMedia error ("No codecs supported") exactly when that list is
empty, and otherwise returns a session holding the negotiated device and bound
to that room name and signaling socket with no transports yet. -/
theorem joinRoom_codec_negotiation (rs : Registry)
    (negotiate : Caps → DeviceCaps) (name : String) (sock : Nat)
    (room : RoomState) (cs : List Codec)
    (hroom : lookupRoom rs name = some room)
    (hcodecs : (negotiate room.rtpCapabilities).codecs = some cs) :
    (joinRoom (some rs) negotiate name sock = .errNoCodecs ↔ cs = []) ∧
    (cs ≠ [] → joinRoom (some rs) negotiate name sock =
      .ok { device := negotiate room.rtpCapabilities, room := name,
            socketId := sock, sendTransport := none, recvTransport := none }) := by
  by_cases h : cs = []
  · subst h
    constructor
    · simp [joinRoom, hroom, hcodecs]
    · intro hne; exact absurd rfl hne
  · constructor
    · constructor
      · intro hj
        exfalso
        have : ¬((negotiate room.rtpCapabilities).codecs = some []) := by
          rw [hcodecs]
          simp [h]
        simp [joinRoom, hroom, this] at hj
      · intro hc; exact absurd hc h
    · intro _
      have : ¬((negotiate room.rtpCapabilities).codecs = some []) := by
        rw [hcodecs]
        simp [h]
      simp [joinRoom, hroom, this]

/-- Witness for C6: a one-room registry whose capabilities negotiate to the
nonempty codec list `["vp8"]`; joining succeeds with a session bound to
"main" and socket 7, and does not fail with the UnsupportedMedia error. -/
theorem joinRoom_codec_negotiation_witness :
    joinRoom (some [("main", { rtpCapabilities := ["vp8"], members := [] })])
        (fun caps => { codecs := some caps }) "main" 7 =
      .ok { device := { codecs := some ["vp8"] }, room := "main", socketId := 7,
            sendTransport := none, recvTransport := none } ∧
    ¬(joinRoom (some [("main", { rtpCapabilities := ["vp8"], members := [] })])
        (fun caps => { codecs := some caps }) "main" 7 = .errNoCodecs) := by
  have h := joinRoom_codec_negotiation
    [("main", { rtpCapabilities := ["vp8"], members := [] })]
    (fun caps => { codecs := some caps }) "main" 7
    { rtpCapabilities := ["vp8"], members := [] } ["vp8"] rfl rfl
  refine ⟨h.2 (by decide), fun hc => ?_⟩
  have := h.1.mp hc
  exact List.cons_ne_nil _ _ this

/-- Claim C7: `close()` never raises — the call returns normally for every client
state, a client with no transports is left unchanged with no notification
emitted, exactly one `close-transport` notification is emitted per present
transport in a call, and a repeated call also returns normally. -/
theorem close_skips_absent_and_never_raises (c : ClientState)
    (dev : DeviceCaps) (room : String) (sock : Nat) :
    closeClient c = .ok (closeRun c) ∧
    closeRun { device := dev, room := room, socketId := sock,
               sendTransport := none, recvTransport := none } =
      ({ device := dev, room := room, socketId := sock,
         sendTransport := none, recvTransport := none }, []) ∧
    (closeRun c).2.length =
      (if c.sendTransport.isSome then 1 else 0) +
        (if c.recvTransport.isSome then 1 else 0) ∧
    closeClient (closeRun c).1 = .ok (closeRun (closeRun c).1) := by
  refine ⟨rfl, rfl, ?_, rfl⟩
  rcases c with ⟨d, r, s, st, rt⟩
  cases st <;> cases rt <;> simp [closeRun]

/-- Claim C8: a session owns at most one transport per direction. Once a send
transport exists it survives every later `createProducer`/`createConsumer`
call unchanged (they reuse it), and likewise for the recv transport; the first
`createProducer` call on a transportless session creates the send transport
from the `join-room` credentials, and the first `createConsumer` call likewise
creates the recv transport. -/
theorem single_transport_per_direction (calls : List SessionCall)
    (dev : DeviceCaps) (room : String) (sock : Nat) (st rt : Transport)
    (so ro : Option Transport) (creds : TransportCreds)
    (cr : Except ErrKind Unit) (pr : Except ErrKind String) (trk : String)
    (cres : Except ErrKind ConsumeCreds) (rres : Except ErrKind Unit)
    (pid : String) (kd : MediaKind) (sched : ConsumerSched) :
    (calls.foldl sessionStep
        { device := dev, room := room, socketId := sock,
          sendTransport := some st, recvTransport := ro }).sendTransport
      = some st ∧
    (calls.foldl sessionStep
        { device := dev, room := room, socketId := sock,
          sendTransport := so, recvTransport := some rt }).recvTransport
      = some rt ∧
    (createProducerStep
        { device := dev, room := room, socketId := sock,
          sendTransport := none, recvTransport := ro }
        { joinRes := .ok creds, connectRes := cr, produceRes := pr,
          track := trk }).2.sendTransport
      = some { id := creds.id, closed := false } ∧
    (createConsumerRun
        { device := dev, room := room, socketId := sock,
          sendTransport := so, recvTransport := none }
        { joinRes := .ok creds, consumeRes := cres, resumeRes := rres,
          producerId := pid, producerKind := kd } sched).state.recvTransport
      = some { id := creds.id, closed := false } := by
  refine ⟨foldl_sessionStep_send calls _ st rfl,
    foldl_sessionStep_recv calls _ rt rfl, ?_, ?_⟩
  · cases pr <;> cases cr <;> rfl
  · rw [createConsumerRun_fresh _ _ _ creds rfl rfl, consumeTail_state]

/-- Claim C9: a `rooms-updated` push carrying an error and no payload still
overwrites the registry — the handler stores `data.result!` without inspecting
the error branch, leaving the undefined value — and a subsequent `joinRoom`
call on any room then faults with a TypeError when indexing the registry
instead of failing with the RoomDoesNotExist error. -/
theorem error_push_faults_later_join (st : SubState) (e : ErrKind)
    (negotiate : Caps → DeviceCaps) (name : String) (sock : Nat) :
    (handlePush st { result := none, error := some e }).rooms = none ∧
    joinRoom (handlePush st { result := none, error := some e }).rooms
        negotiate name sock = .fault ∧
    JoinOutcome.fault ≠ JoinOutcome.errRoomDoesNotExist := by
  have h : (handlePush st { result := none, error := some e }).rooms = none :=
    handlePush_rooms st _
  refine ⟨h, ?_, by decide⟩
  rw [h]
  rfl

/-- Claim C10: over a subscription's whole lifetime, `onFirstUpdate` is invoked
exactly once: it has been invoked exactly once already after the first
received snapshot, and after any sequence of later snapshots the total
invocation count is still exactly one. -/
theorem on_first_update_exactly_once (p : RoomsUpdatedPush)
    (ps : List RoomsUpdatedPush) :
    (handlePush initialSub p).firstUpdateCalls = 1 ∧
    (processPushes initialSub (p :: ps)).firstUpdateCalls = 1 := by
  have h1 : (handlePush initialSub p).firstUpdateCalls = 1 := by
    simp [handlePush, initialSub]
  refine ⟨h1, ?_⟩
  calc (processPushes initialSub (p :: ps)).firstUpdateCalls
      = (processPushes (handlePush initialSub p) ps).firstUpdateCalls := rfl
    _ = (handlePush initialSub p).firstUpdateCalls :=
        processPushes_of_fired ps _ (handlePush_fired initialSub p)
    _ = 1 := h1

end StreamClient
